import Mathlib

/-!
# Verification of the AutoHubble LLM-completion core

Shallow embedding of the AutoHubble repository (autoscraper package):
the OpenRouter completion client (`utils/openrouter.py`), the static model
configuration (`config.py`), the generator / navigator / debugger agent loops
(`agents/*.py`), the file manager (`utils/file_manager.py`) and the session
constructor (`autoscraper.py`).

Modelling conventions:
* Python strings are `List Char`; token counting (`tiktoken` cl100k_base) is an
  abstract parameter `tok : List Char → Nat`, since the concrete tokenizer is
  an external library.
* `random.randint(0, n-1)` draws are an abstract parameter
  `pick : Nat → Nat`; the k-th draw over a pool of size `n` is `pick k % n`.
* Python non-negative `int(x * 0.8)` and `int(x * 0.1)` on the sizes occurring
  here are modelled as the exact natural-number floors `x * 4 / 5` and
  `x / 10`.
* Exceptions are an explicit `PyExn` error type threaded through `Except`;
  the LLM backend is an oracle mapping (model name, attempt index, payload) to
  an attempt outcome.
* Mutable dict configuration (`MODELS`, `MODEL_CHOICES`) is passed explicitly
  as association lists; the source's literal tables are given as the concrete
  instances `MODELS` and `MODEL_CHOICES`.
-/

namespace AutoHubble

/-- Python exception values that the embedded code can raise. -/
inductive PyExn where
  | typeError
  | keyError
  | valueError
  | attributeError
  /-- the `Exception(f"All models failed for {model_role}")` raised at the end
  of `OpenRouterClient.get_completion` -/
  | allModelsFailed
  /-- an arbitrary exception not otherwise classified -/
  | otherExn
  deriving DecidableEq, Repr

/-- Upstream provider enum from `config.py`. -/
inductive Provider where
  | google
  | openai
  | googleAIStudio
  | anthropic
  deriving DecidableEq, Repr

/-- `config.Model`: one entry of the static model catalog. -/
structure Model where
  name : String
  context_length : Nat
  description : String
  structured_output : Bool
  pydantic_output : Bool
  providers : List Provider
  retries : Nat
  deriving DecidableEq, Repr

/-- The `MODELS` dict of `config.py`, as an association list in source order. -/
def MODELS : List (String × Model) :=
  [ ("claude-3.5-sonnet",
      ⟨"anthropic/claude-3.5-sonnet:beta", 200000, "Claude 3.5 Sonnet",
        true, false, [.anthropic], 3⟩),
    ("gpt-4o",
      ⟨"openai/gpt-4o-2024-11-20", 128000, "GPT-4o",
        true, true, [.openai], 3⟩),
    ("gpt-4o-mini",
      ⟨"openai/gpt-4o-mini", 128000, "GPT-4o Mini",
        true, true, [.openai], 3⟩),
    ("qwq",
      ⟨"qwen/qwq-32b-preview", 32000, "Qwen QWQ 32B Preview",
        false, false, [], 3⟩),
    ("o1-mini",
      ⟨"openai/o1-mini", 128000, "O1 Mini",
        false, false, [.openai], 3⟩),
    ("gemini-2-flash",
      ⟨"google/gemini-2.0-flash-exp:free", 1000000, "Gemini 2.0 Flash Experimental",
        true, true, [.google], 5⟩),
    ("gemini-exp",
      ⟨"google/gemini-exp-1206:free", 2000000, "Gemini Experimental 1206",
        true, true, [.google, .googleAIStudio], 3⟩),
    ("gemini-2-flash-thinking",
      ⟨"google/gemini-2.0-flash-thinking-exp:free", 40000, "Gemini 2.0 Flash Thinking Experimental",
        false, false, [.google, .googleAIStudio], 3⟩),
    ("gemini-flash-1-5",
      ⟨"google/gemini-flash-1.5", 2000000, "Gemini Flash 1.5",
        true, true, [.google, .googleAIStudio], 3⟩),
    ("deepseek-v3",
      ⟨"deepseek/deepseek-chat", 64000, "DeepSeek V3",
        true, false, [], 3⟩),
    ("llama-3.3-70b",
      ⟨"meta-llama/llama-3.3-70b-instruct", 131000, "Llama 3.3 70B",
        true, false, [], 3⟩) ]

/-- The `MODEL_CHOICES` dict of `config.py`: role → ordered fallback list. -/
def MODEL_CHOICES : List (String × List String) :=
  [ ("navigator", ["gemini-2-flash", "gpt-4o-mini", "gemini-flash-1-5", "llama-3.3-70b"]),
    ("generator", ["deepseek-v3", "gemini-exp", "claude-3.5-sonnet", "gpt-4o"]),
    ("debugger", ["claude-3.5-sonnet", "gemini-2-flash-thinking", "qwq", "o1-mini"]),
    ("structurer", ["gemini-flash-1-5"]),
    ("summarizer", ["gemini-2-flash-thinking", "gpt-4o", "o1-mini", "qwq"]) ]

/-- Python `dict[key]` on a string-keyed dict: the value, when the key is
present. -/
def dictGet (d : List (String × α)) (k : String) : Option α :=
  (d.find? (fun p => p.1 == k)).map (·.2)

-- Constants from `config.py`.
def MAX_DEPTH : Nat := 3
def MAX_LINKS : Nat := 5
def MAX_ACTIONS : Nat := 20

/-! ## Token Budgeter / Truncation Engine (`OpenRouterClient._truncate_content`) -/

/-- Number of leading newline characters. -/
def countLeadNL : List Char → Nat
  | '\n' :: rest => countLeadNL rest + 1
  | _ => 0

/-- Fuel-driven worker for `re.split(r"(\n{2,}|\. )", middle)`: scans left to
right; a maximal run of at least two newlines, or the two characters `". "`,
is a delimiter kept as its own chunk (the regex has a capturing group).
The fuel is an upper bound on the input length, so the fallback branch is
never taken when called through `splitChunks`. -/
def splitChunksGo : Nat → List Char → List Char → List (List Char)
  | _, [], acc => [acc.reverse]
  | 0, cs, acc => [acc.reverse ++ cs]
  | fuel + 1, '\n' :: rest, acc =>
    let run := countLeadNL rest + 1
    if 2 ≤ run then
      acc.reverse :: List.replicate run '\n' :: splitChunksGo fuel (rest.drop (run - 1)) []
    else
      splitChunksGo fuel rest ('\n' :: acc)
  | fuel + 1, '.' :: cs, acc =>
    match cs with
    | ' ' :: rest => acc.reverse :: ['.', ' '] :: splitChunksGo fuel rest []
    | _ => splitChunksGo fuel cs ('.' :: acc)
  | fuel + 1, c :: rest, acc => splitChunksGo fuel rest (c :: acc)

/-- `re.split(r"(\n{2,}|\. )", middle)` with the delimiters retained. -/
def splitChunks (cs : List Char) : List (List Char) :=
  splitChunksGo cs.length cs []

/-- The chunk-selection `while` loop of `_truncate_content`: repeatedly pop a
random chunk (the `k`-th draw over a pool of size `n` is `pick k % n`) and
keep it when it still fits the remaining middle budget; stop when the budget
is filled or the pool is exhausted.  Structural recursion on a fuel that
starts at the pool size (the pool shrinks by one each iteration). -/
def selectChunksGo (pick : Nat → Nat) (budget : Nat) :
    Nat → Nat → Nat → List (List Char) → List (List Char) → List (List Char)
  | 0, _, _, _, selected => selected
  | _ + 1, _, _, [], selected => selected
  | fuel + 1, step, current, pool@(_ :: _), selected =>
    if current < budget then
      let i := pick step % pool.length
      let chunk := pool.getD i []
      let pool1 := pool.eraseIdx i
      if current + chunk.length ≤ budget then
        selectChunksGo pick budget fuel (step + 1) (current + chunk.length) pool1
          (selected ++ [chunk])
      else
        selectChunksGo pick budget fuel (step + 1) current pool1 selected
    else selected

/-- Run the selection loop on a chunk pool. -/
def selectChunks (pick : Nat → Nat) (budget : Nat) (pool : List (List Char)) :
    List (List Char) :=
  selectChunksGo pick budget pool.length 0 0 pool []

/-- `OpenRouterClient._truncate_content(content_str, system_prompt, max_tokens)`.
`tok` is the token counter (`len(self.encoding.encode(·))`), `pick` the
randomness source.  Python slice quirks are reproduced: for `keep_end = 0`,
`content_str[-0:]` is the whole string and `content_str[0:-0]` is empty.
(The source also computes `system_tokens`, which it never uses.) -/
def truncate_content (tok : List Char → Nat) (pick : Nat → Nat)
    (content_str system_prompt : List Char) (max_tokens : Nat) : List Char :=
  let available_tokens := max_tokens * 4 / 5
  let _system_tokens := tok system_prompt
  let content_tokens := tok content_str
  if content_tokens > available_tokens then
    let keep_chars := content_str.length * available_tokens / content_tokens
    let keep_end := keep_chars / 10
    let beginning := content_str.take keep_end
    let ending :=
      if keep_end = 0 then content_str
      else content_str.drop (content_str.length - keep_end)
    let middle :=
      if keep_end = 0 then []
      else (content_str.drop keep_end).take (content_str.length - 2 * keep_end)
    let chunks := splitChunks middle
    let keep_middle_chars := keep_chars - 2 * keep_end
    let selected_chunks := selectChunks pick keep_middle_chars chunks
    beginning ++ selected_chunks.flatten ++ ending
  else content_str

/-! ## Completion Executor (`OpenRouterClient.get_completion` / `_try_model`) -/

/-- Outcome of one delivery attempt (one call of `_handle_structured_output`
or `_handle_unstructured_output`), as seen by `_try_model`:
* `success t` — the call returned a (truthy) parsed value `t`;
* `noneValue` — the call returned Python `None` (e.g. a refusal parse), which
  `_try_model` returns at once and `get_completion` treats as falsy;
* `transient e` — one of the caught exception classes (`APIError`,
  `APITimeoutError`, `RateLimitError`, `TypeError`, `ValidationError`);
* `fatal e` — any other exception, which propagates uncaught. -/
inductive AttemptResult (T : Type) where
  | success : T → AttemptResult T
  | noneValue : AttemptResult T
  | transient : AttemptResult T
  | fatal : PyExn → AttemptResult T
  deriving DecidableEq, Repr

/-- The backend oracle: model name, zero-based attempt index, payload. -/
def Backend (T : Type) : Type := String → Nat → List Char → AttemptResult T

/-- The `while retries < model.retries` loop of `_try_model`, counting from
absolute attempt index `r` with `rem` iterations of budget left
(`rem = model.retries - r`).  Returns the total number of attempts made and
either the parsed response (`some`), `None` (`none`, model exhausted or a
`None` result), or a propagating exception. -/
def tryModelGo (backend : Backend T) (m : Model) (content_str : List Char) :
    Nat → Nat → Nat × Except PyExn (Option T)
  | 0, r => (r, .ok none)
  | rem + 1, r =>
    match backend m.name r content_str with
    | .success t => (r + 1, .ok (some t))
    | .noneValue => (r + 1, .ok none)
    | .fatal e => (r + 1, .error e)
    | .transient =>
      if rem = 0 then (r + 1, .ok none)
      else tryModelGo backend m content_str rem (r + 1)

/-- `OpenRouterClient._try_model`, instrumented with the attempt count. -/
def try_model (backend : Backend T) (m : Model) (content_str : List Char) :
    Nat × Except PyExn (Option T) :=
  tryModelGo backend m content_str m.retries 0

/-- One record of the dispatch log: a model the executor sent the payload to,
the payload `content_str` at that point, and how many attempts were made. -/
structure DispatchEntry where
  model : Model
  payload : List Char
  attempts : Nat
  deriving DecidableEq, Repr

deriving instance DecidableEq for Except

/-- Result of a `get_completion` run: the returned value or exception, plus
the dispatch log (one entry per fallback model tried, in order). -/
structure RunResult (T : Type) where
  result : Except PyExn T
  log : List DispatchEntry
  deriving DecidableEq, Repr

/-- The `for model_name in MODEL_CHOICES[model_role]` loop of
`get_completion`: per model, recompute the combined token count, truncate the
(mutated) `content_str` when it exceeds the model's full context length, run
the retry loop, and return on the first truthy response. -/
def goModels (models : List (String × Model)) (tok : List Char → Nat)
    (pick : Nat → Nat) (backend : Backend T) (system_prompt : List Char) :
    List String → List Char → RunResult T
  | [], _ => ⟨.error .allModelsFailed, []⟩
  | model_name :: rest, content_str =>
    match dictGet models model_name with
    | none => ⟨.error .keyError, []⟩
    | some model_config =>
      let max_tokens := model_config.context_length
      let total_tokens := tok (system_prompt ++ content_str)
      let content1 :=
        if total_tokens > max_tokens then
          truncate_content tok pick content_str system_prompt max_tokens
        else content_str
      match try_model backend model_config content1 with
      | (n, .error e) => ⟨.error e, [⟨model_config, content1, n⟩]⟩
      | (n, .ok (some t)) => ⟨.ok t, [⟨model_config, content1, n⟩]⟩
      | (n, .ok none) =>
        let r := goModels models tok pick backend system_prompt rest content1
        ⟨r.result, ⟨model_config, content1, n⟩ :: r.log⟩

/-- `OpenRouterClient.get_completion(model_role, system_prompt, user_content,
response_model)`, with the configuration tables, tokenizer, randomness and
backend as explicit parameters.  `content_str` is the serialized
`json.dumps(user_content)`. -/
def get_completion (models : List (String × Model))
    (choices : List (String × List String)) (tok : List Char → Nat)
    (pick : Nat → Nat) (backend : Backend T) (model_role : String)
    (system_prompt content_str : List Char) : RunResult T :=
  match dictGet choices model_role with
  | none => ⟨.error .keyError, []⟩
  | some names => goModels models tok pick backend system_prompt names content_str

/-- `True` iff an `Except` value is an error. -/
def isErr : Except PyExn α → Bool
  | .error _ => true
  | .ok _ => false

/-! ## Structuring fallback (`OpenRouterClient.structure_response`) -/

/-- A Python value used as a dictionary key: either a string or a list of
strings (dynamic typing — the latter is unhashable). -/
inductive PyKey where
  | str : String → PyKey
  | strList : List String → PyKey
  deriving DecidableEq, Repr

/-- Python `MODELS[key]` under dynamic typing: a list key raises
`TypeError: unhashable type: 'list'` before any lookup; a missing string key
raises `KeyError`. -/
def pyDictGetModel (d : List (String × Model)) : PyKey → Except PyExn Model
  | .strList _ => .error .typeError
  | .str s =>
    match dictGet d s with
    | some m => .ok m
    | none => .error .keyError

/-- `OpenRouterClient.structure_response(unstructured_response,
response_model)`.  The source computes
`structurer_model = MODELS[MODEL_CHOICES["structurer"]]` — the key is the
*list* `MODEL_CHOICES["structurer"]`, not an element of it — and only then
would call the structurer backend once (`structBackend`) with the free-text
response. -/
def structure_response (models : List (String × Model))
    (choices : List (String × List String)) (structBackend : Model → List Char → T)
    (unstructured_response : List Char) : Except PyExn T := do
  let key : PyKey :=
    match dictGet choices "structurer" with
    | some l => .strList l
    | none => .str ""   -- unreachable: "structurer" would raise KeyError first
  let structurer_model ← pyDictGetModel models key
  pure (structBackend structurer_model unstructured_response)

/-- The lookup the spec describes for §4.5: the single configured structurer
model, i.e. the first (only) element of `MODEL_CHOICES["structurer"]`.
Modelled from the spec: "always executed against the single configured
structurer model"; used to show the source's list-keyed lookup is a slip. -/
def intendedStructurerModel (models : List (String × Model))
    (choices : List (String × List String)) : Except PyExn Model :=
  match dictGet choices "structurer" with
  | some (name :: _) => pyDictGetModel models (.str name)
  | _ => .error .keyError

/-! ## File manager (`utils/file_manager.py`) -/

/-- `models.FileAction.action_type`: the `Literal` admitted by the pydantic
schema (note: no "edit", so `implement_action`'s edit branch is unreachable
for validated actions). -/
inductive ActionType where
  | create
  | overwrite
  | delete
  | append
  deriving DecidableEq, Repr

/-- `models.FileAction`. -/
structure FileAction where
  file : String
  action_type : ActionType
  content : String
  deriving DecidableEq, Repr

/-- `models.GeneratorAction`. -/
structure GeneratorAction where
  actions : List FileAction
  is_final : Bool
  deriving DecidableEq, Repr

/-- `models.ActionExecutionFeedBack`. -/
structure ActionExecutionFeedBack where
  success : Bool
  message : String
  deriving DecidableEq, Repr

/-- `models.ActionMemory`. -/
structure ActionMemory where
  action : GeneratorAction
  feedback : List ActionExecutionFeedBack
  deriving DecidableEq, Repr

/-- The spider project directory: relative file path → file content. -/
def FS : Type := List (String × String)

/-- Content of a file, when it exists (`Path.exists` / `read_text`). -/
def fsRead (fs : FS) (path : String) : Option String :=
  dictGet fs path

/-- Write a file (`write_text`), creating or replacing it. -/
def fsWrite (fs : FS) (path content : String) : FS :=
  match fs with
  | [] => [(path, content)]
  | (p, c) :: rest => if p == path then (p, content) :: rest else (p, c) :: fsWrite rest path content

/-- Remove a file (`Path.unlink`). -/
def fsDelete (fs : FS) (path : String) : FS :=
  match fs with
  | [] => []
  | (p, c) :: rest => if p == path then rest else (p, c) :: fsDelete rest path

/-- `SpiderFileManager._handle_create_action`: creating an existing path is a
per-operation failure outcome and leaves the file system unchanged. -/
def handle_create_action (fs : FS) (a : FileAction) : FS × ActionExecutionFeedBack :=
  match fsRead fs a.file with
  | some _ => (fs, ⟨false, "File " ++ a.file ++ " already exists. Skipping."⟩)
  | none => (fsWrite fs a.file a.content, ⟨true, "Created file " ++ a.file⟩)

/-- `SpiderFileManager._handle_overwrite_action`. -/
def handle_overwrite_action (fs : FS) (a : FileAction) : FS × ActionExecutionFeedBack :=
  match fsRead fs a.file with
  | none => (fs, ⟨false, "File " ++ a.file ++ " does not exist. Skipping."⟩)
  | some _ => (fsWrite fs a.file a.content, ⟨true, "Overwritten file " ++ a.file⟩)

/-- `SpiderFileManager._handle_delete_action`. -/
def handle_delete_action (fs : FS) (a : FileAction) : FS × ActionExecutionFeedBack :=
  match fsRead fs a.file with
  | none => (fs, ⟨false, "File " ++ a.file ++ " does not exist. Skipping."⟩)
  | some _ => (fsDelete fs a.file, ⟨true, "Deleted file " ++ a.file⟩)

/-- `SpiderFileManager._handle_append_action`. -/
def handle_append_action (fs : FS) (a : FileAction) : FS × ActionExecutionFeedBack :=
  match fsRead fs a.file with
  | none => (fs, ⟨false, "File " ++ a.file ++ " does not exist. Skipping."⟩)
  | some c => (fsWrite fs a.file (c ++ a.content), ⟨true, "Appended to file " ++ a.file⟩)

/-- The per-operation dispatch of `SpiderFileManager.implement_action`. -/
def applyFileAction (fs : FS) (a : FileAction) : FS × ActionExecutionFeedBack :=
  match a.action_type with
  | .create => handle_create_action fs a
  | .overwrite => handle_overwrite_action fs a
  | .delete => handle_delete_action fs a
  | .append => handle_append_action fs a

/-- Fold of `applyFileAction` over an operation list, collecting one feedback
per operation in order. -/
def implActions (fs : FS) : List FileAction → FS × List ActionExecutionFeedBack
  | [] => (fs, [])
  | a :: rest =>
    let (fs1, fb) := applyFileAction fs a
    let (fs2, fbs) := implActions fs1 rest
    (fs2, fb :: fbs)

/-- `SpiderFileManager.implement_action(output_dir, action)`. -/
def implement_action (fs : FS) (action : GeneratorAction) :
    FS × List ActionExecutionFeedBack :=
  implActions fs action.actions

/-! ## Generator agent loop (`GeneratorAgent.generate_spider`) -/

/-- The `for _ in range(MAX_ACTIONS)` loop of `generate_spider`: request an
action from the generator role (`steps i` abstracts the
`self._get_action(...)` LLM call at iteration `i`), apply it, append the
(action, feedback) pair to memory, and `break` once a final action has at
least one successful operation.  Returns the file system and the memory
entries produced. -/
def genLoop (steps : Nat → GeneratorAction) :
    Nat → Nat → FS → FS × List ActionMemory
  | 0, _, fs => (fs, [])
  | fuel + 1, i, fs =>
    let action := steps i
    let (fs1, output) := implement_action fs action
    if action.is_final && output.any (·.success) then
      (fs1, [⟨action, output⟩])
    else
      let (fs2, rest) := genLoop steps fuel (i + 1) fs1
      (fs2, ⟨action, output⟩ :: rest)

/-- `GeneratorAgent.generate_spider`, with the LLM abstracted as the action
stream `steps`. -/
def generate_spider (steps : Nat → GeneratorAction) (fs : FS) :
    FS × List ActionMemory :=
  genLoop steps MAX_ACTIONS 0 fs

/-- Whether a memory entry satisfies the loop's break condition:
`action.is_final and any(fb.success for fb in output)`. -/
def stopsLoop (e : ActionMemory) : Bool :=
  e.action.is_final && e.feedback.any (·.success)

/-! ## Navigator traversal (`NavigatorAgent.analyse_website`) -/

/-- One depth level: the `for i, url in enumerate(copy(urls))` loop with its
`if i > MAX_LINKS: break` guard.  `oracle url` abstracts
`self._analyze_page(url, driver, all_page_analyses)`: `some links` is a
successful analysis whose `links_to_follow` are `links` (the analysis record
is appended and `urls` is reassigned); `none` is a failed or raised analysis
(skipped).  Returns (number of pages analyzed at this level, number of
analysis records collected, the final value of `urls`). -/
def levelGo (oracle : String → Option (List String)) :
    List String → Nat → List String → Nat × Nat × List String
  | [], _, urls => (0, 0, urls)
  | url :: rest, i, urls =>
    if i > MAX_LINKS then (0, 0, urls)
    else
      match oracle url with
      | some links =>
        let (a, r, u) := levelGo oracle rest (i + 1) links
        (a + 1, r + 1, u)
      | none =>
        let (a, r, u) := levelGo oracle rest (i + 1) urls
        (a + 1, r, u)

/-- The `for iter in range(MAX_DEPTH)` loop of `analyse_website`, returning
per-level (pages analyzed, records collected) pairs. -/
def analyseGo (oracle : String → Option (List String)) :
    Nat → List String → List (Nat × Nat)
  | 0, _ => []
  | depth + 1, urls =>
    if urls.isEmpty then []
    else
      let (a, r, u) := levelGo oracle urls 0 urls
      (a, r) :: analyseGo oracle depth u

/-- `NavigatorAgent.analyse_website(start_url)`, instrumented with the
per-depth-level analysis counts (the synthesis call at the end consumes the
collected records and does not affect the traversal). -/
def analyse_website (oracle : String → Option (List String)) (start_url : String) :
    List (Nat × Nat) :=
  analyseGo oracle MAX_DEPTH [start_url]

/-! ## Debugger agent (`DebuggerAgent.test_scraper`) -/

/-- `agents/debugger.py`'s local `TestResult` model (success flag, item
count, recommendations). -/
structure TestResult where
  success : Bool
  items_scraped : Int
  recommendations : String
  deriving DecidableEq, Repr

/-- How the spider subprocess run ended: completed within the timeout, timed
out (`subprocess.TimeoutExpired`, a soft failure), or raised some other
exception (hard failure). -/
inductive SpiderRun where
  | completed (stdout stderr : String)
  | timedOut (stdout stderr : String)
  | failed (msg : String)
  deriving DecidableEq, Repr

/-- Inputs of one `test_scraper` call, with the external collaborators
abstracted: the spider name extracted from the file (`_get_spider_name`,
`none` when undeterminable), the subprocess outcome, the item count from
`_count_items`, and the critic verdict returned by `_analyze_run`'s
completion call. -/
structure DebugEnv where
  spider_name : Option String
  run : SpiderRun
  items_scraped : Nat
  critic : TestResult

/-- `DebuggerAgent.test_scraper`: early failure returns for a missing spider
name or a hard subprocess error; otherwise count items, obtain the critic's
verdict, and force `success = False` (prepending an explanation) whenever
zero items were scraped. -/
def test_scraper (env : DebugEnv) : TestResult :=
  match env.spider_name with
  | none => ⟨false, 0, "Could not determine spider name from spider path"⟩
  | some _ =>
    match env.run with
    | .failed msg => ⟨false, 0, "Failed to run spider: " ++ msg⟩
    | _ =>
      let result := env.critic
      if env.items_scraped = 0 then
        { result with
            success := false,
            recommendations := "No items were scraped. " ++ result.recommendations }
      else result

/-! ## Session constructor (`AutoScraper.__init__`) -/

/-- The process environment as seen after `load_dotenv()`. -/
structure Env where
  openrouter_api_key : Option String

/-- `OpenRouterClient.__init__`: `os.getenv("OPENROUTER_API_KEY")` must be
set and non-empty (`if not api_key` is true for both `None` and `""`),
otherwise `ValueError` is raised. -/
def openRouterClientInit (env : Env) : Except PyExn Unit :=
  match env.openrouter_api_key with
  | some s => if s = "" then .error .valueError else .ok ()
  | none => .error .valueError

/-- `NavigatorAgent.__init__`: builds an `OpenRouterClient` (the
`ChromeDriver`, `HTMLParser` and Jinja environment constructions have no
modelled failure modes). -/
def navigatorAgentInit (env : Env) : Except PyExn Unit :=
  openRouterClientInit env

/-- `GeneratorAgent.__init__`: builds an `OpenRouterClient` and a
`SpiderFileManager`. -/
def generatorAgentInit (env : Env) : Except PyExn Unit :=
  openRouterClientInit env

/-- Number of parameters of `DebuggerAgent.__init__` besides `self`
(`def __init__(self) -> None`). -/
def debuggerAgentInitArity : Nat := 0

/-- Calling `DebuggerAgent(...)` with `posArgs` positional arguments: Python
raises `TypeError` on an arity mismatch before the body runs; otherwise the
body builds an `OpenRouterClient` and a `SpiderFileManager`. -/
def callDebuggerAgent (env : Env) (posArgs : Nat) : Except PyExn Unit :=
  if posArgs ≠ debuggerAgentInitArity then .error .typeError
  else openRouterClientInit env

/-- `AutoScraper.__init__`: constructs the navigator, the generator, and then
evaluates `DebuggerAgent(self.navigator)` — one positional argument. -/
def autoScraperInit (env : Env) : Except PyExn Unit := do
  navigatorAgentInit env
  generatorAgentInit env
  callDebuggerAgent env 1

/-! ## Concrete instances used by counterexamples and witnesses -/

/-- A degenerate randomness source: always draw index 0. -/
def pickZero : Nat → Nat := fun _ => 0

/-- Character-per-token counter, an instance of the abstract tokenizer. -/
def lenTok : List Char → Nat := fun l => l.length

/-- 100-character content whose first 10% is "aaaaaaaaaa" but whose head/tail
pinning under truncation keeps only 5 characters each. -/
def contentC2ex : List Char := List.replicate 95 'a' ++ ['b', 'c', 'd', 'e', 'f']

/-- A tokenizer charging 9000 tokens per character. -/
def tokC1ex : List Char → Nat := fun l => 9000 * l.length

/-- A backend whose every attempt succeeds with value 7. -/
def backendC1ex : Backend Nat := fun _ _ _ => .success 7

/-- The `gemini-2-flash` catalog entry, first fallback of the navigator
role. -/
def geminiFlash2Model : Model :=
  ⟨"google/gemini-2.0-flash-exp:free", 1000000, "Gemini 2.0 Flash Experimental",
    true, true, [.google], 5⟩

/-- Claim C1 as stated: every payload that reaches the backend (system prompt
together with the possibly-truncated content) has an estimated token count of
at most 0.8 × the dispatched model's context length. -/
def c1Claim (models : List (String × Model)) (choices : List (String × List String))
    (tok : List Char → Nat) (pick : Nat → Nat) (backend : Backend T)
    (role : String) (sys content : List Char) : Prop :=
  ∀ e ∈ (get_completion models choices tok pick backend role sys content).log,
    1 ≤ e.attempts → 5 * tok (sys ++ e.payload) ≤ 4 * e.model.context_length

/-- Claim C2 as stated: whenever the engine actually truncates, the output
begins with exactly the first 10% and ends with exactly the last 10% of the
original content's characters. -/
def c2Claim (tok : List Char → Nat) (pick : Nat → Nat)
    (content sys : List Char) (max_tokens : Nat) : Prop :=
  truncate_content tok pick content sys max_tokens ≠ content →
    (truncate_content tok pick content sys max_tokens).take (content.length / 10)
        = content.take (content.length / 10)
    ∧ (truncate_content tok pick content sys max_tokens).drop
          ((truncate_content tok pick content sys max_tokens).length - content.length / 10)
        = content.drop (content.length - content.length / 10)

/-- Claim C4 as stated, for the fallback list `names` of `role`: the executor
fails exactly when every model in the list has exhausted its retry budget,
and then the single exhaustion signal is the failure. -/
def c4Claim (models : List (String × Model)) (choices : List (String × List String))
    (tok : List Char → Nat) (pick : Nat → Nat) (backend : Backend T)
    (role : String) (sys content : List Char) (names : List String) : Prop :=
  let r := get_completion models choices tok pick backend role sys content
  isErr r.result = true ↔
    (r.result = .error .allModelsFailed ∧ r.log.length = names.length ∧
      ∀ e ∈ r.log, e.attempts = e.model.retries)

/-- Claim C8 as stated: at most `MAX_DEPTH` depth levels, and at most
`MAX_LINKS` links analyzed at each level. -/
def c8Claim (oracle : String → Option (List String)) (start_url : String) : Prop :=
  (analyse_website oracle start_url).length ≤ MAX_DEPTH ∧
    ∀ p ∈ analyse_website oracle start_url, p.1 ≤ MAX_LINKS

/-- A two-model catalog for exercising the fallback chain: `A` and `B`, with
one retry each. -/
def modelsABex : List (String × Model) :=
  [("A", ⟨"A", 100, "model A", true, false, [], 1⟩),
   ("B", ⟨"B", 100, "model B", true, false, [], 1⟩)]

/-- A fallback table mapping role `"x"` to `[A, B]`. -/
def choicesXex : List (String × List String) := [("x", ["A", "B"])]

/-- A backend whose first attempt on model `A` raises an uncaught exception
(`ValueError`, e.g. from `chompjs` parsing) while `B` would succeed. -/
def backendFatalAex : Backend Nat :=
  fun n _ _ => if n = "A" then .fatal .valueError else .success 0

/-- A page-analysis oracle: the start page `"s"` yields seven links, every
other page fails. -/
def oracleC8ex : String → Option (List String) :=
  fun u => if u = "s" then some ["u1", "u2", "u3", "u4", "u5", "u6", "u7"] else none

/-- An action stream that is never final, for exercising the generator loop's
fuel bound. -/
def stepsC7ex : Nat → GeneratorAction := fun _ => ⟨[], false⟩

/-- The empty spider project directory. -/
def fsEmpty : FS := []

/-- A backend whose every attempt fails with a retryable (transient)
exception. -/
def backendTransientEx : Backend Nat := fun _ _ _ => .transient

/-- The C3 scenario run: role `"x"` with fallback `[A(retries = 2),
B(retries = 1)]`, every attempt on `A` failing transiently and `B` succeeding
with `t` on its first attempt; context lengths, capability flags, payload and
randomness are arbitrary, and the constant-zero tokenizer keeps every payload
within budget. -/
def c3Run (T : Type) (t : T) (pick : Nat → Nat) (sys content : List Char)
    (ctxA ctxB : Nat) (sa pa sb pb : Bool) : RunResult T :=
  get_completion
    [("A", ⟨"A", ctxA, "model A", sa, pa, [], 2⟩),
     ("B", ⟨"B", ctxB, "model B", sb, pb, [], 1⟩)]
    [("x", ["A", "B"])] (fun _ => 0) pick
    (fun n _ _ => if n = "B" then .success t else .transient) "x" sys content

/-! ## Helper lemmas -/

/-- Every payload in the fallback loop's dispatch log either fits the
dispatched model's full context length together with the system prompt, or is
the output of `truncate_content` on content that exceeded it. -/
theorem goModels_payload {T : Type} (models : List (String × Model))
    (tok : List Char → Nat) (pick : Nat → Nat) (backend : Backend T)
    (sys : List Char) :
    ∀ (names : List String) (content : List Char) (e : DispatchEntry),
      e ∈ (goModels models tok pick backend sys names content).log →
      tok (sys ++ e.payload) ≤ e.model.context_length ∨
      ∃ cprev, e.model.context_length < tok (sys ++ cprev) ∧
        e.payload = truncate_content tok pick cprev sys e.model.context_length := by
  intro names
  induction names with
  | nil => intro content e he; simp [goModels] at he
  | cons n rest ih =>
    intro content e he
    rw [goModels] at he
    cases hd : dictGet models n with
    | none => rw [hd] at he; simp at he
    | some m =>
      rw [hd] at he
      dsimp only at he
      by_cases htr : tok (sys ++ content) > m.context_length
      · rw [if_pos htr] at he
        rcases htm : try_model backend m
            (truncate_content tok pick content sys m.context_length) with ⟨cnt, res⟩
        rw [htm] at he
        match res, he with
        | .error _, he =>
          simp at he
          subst he
          right
          exact ⟨content, htr, rfl⟩
        | .ok (some t), he =>
          simp at he
          subst he
          right
          exact ⟨content, htr, rfl⟩
        | .ok none, he =>
          simp at he
          rcases he with he | he
          · subst he
            right
            exact ⟨content, htr, rfl⟩
          · exact ih _ e he
      · rw [if_neg htr] at he
        rcases htm : try_model backend m content with ⟨cnt, res⟩
        rw [htm] at he
        match res, he with
        | .error _, he =>
          simp at he
          subst he
          left
          exact le_of_not_lt htr
        | .ok (some t), he =>
          simp at he
          subst he
          left
          exact le_of_not_lt htr
        | .ok none, he =>
          simp at he
          rcases he with he | he
          · subst he
            left
            exact le_of_not_lt htr
          · exact ih _ e he

/-- With a backend that only ever succeeds or fails transiently, the retry
loop of `_try_model` either succeeds or makes exactly its remaining budget of
attempts and reports `None`. -/
theorem tryModelGo_retryable {T : Type} (backend : Backend T) (m : Model)
    (c : List Char)
    (hb : ∀ n i cc, backend n i cc = .transient ∨ ∃ t, backend n i cc = .success t) :
    ∀ rem r, (∃ t n, tryModelGo backend m c rem r = (n, .ok (some t)))
      ∨ tryModelGo backend m c rem r = (r + rem, .ok none) := by
  intro rem
  induction rem with
  | zero => intro r; right; simp [tryModelGo]
  | succ rem ih =>
    intro r
    rw [tryModelGo]
    rcases hb m.name r c with hbt | ⟨t, hbs⟩
    · rw [hbt]
      by_cases hrem : rem = 0
      · subst hrem; right; simp
      · rw [if_neg hrem]
        rcases ih (r + 1) with ⟨t, n, hres⟩ | hres
        · left; exact ⟨t, n, hres⟩
        · right
          dsimp only
          rw [hres]
          congr 1
          omega
    · rw [hbs]
      left; exact ⟨t, r + 1, rfl⟩

/-- With a backend that only ever succeeds or fails transiently, and a model
list that fully resolves in the catalog, the fallback loop fails exactly when
it raised the exhaustion signal after every listed model spent its whole
retry budget. -/
theorem goModels_exhaustion {T : Type} (models : List (String × Model))
    (tok : List Char → Nat) (pick : Nat → Nat) (backend : Backend T)
    (sys : List Char)
    (hb : ∀ n i cc, backend n i cc = .transient ∨ ∃ t, backend n i cc = .success t) :
    ∀ (names : List String) (content : List Char),
      (∀ n ∈ names, (dictGet models n).isSome) →
      (isErr (goModels models tok pick backend sys names content).result = true ↔
        ((goModels models tok pick backend sys names content).result
            = .error .allModelsFailed ∧
         (goModels models tok pick backend sys names content).log.length = names.length ∧
         ∀ e ∈ (goModels models tok pick backend sys names content).log,
           e.attempts = e.model.retries)) := by
  intro names
  induction names with
  | nil => intro content _; simp [goModels, isErr]
  | cons n rest ih =>
    intro content hres
    have hn : (dictGet models n).isSome := hres n (by simp)
    rcases hm : dictGet models n with _ | m
    · rw [hm] at hn; simp at hn
    · rw [goModels, hm]
      dsimp only
      set c1 := if tok (sys ++ content) > m.context_length
        then truncate_content tok pick content sys m.context_length else content with hc1
      rcases tryModelGo_retryable backend m c1 hb m.retries 0 with ⟨t, nn, hres2⟩ | hres2
      · rw [try_model, hres2]
        dsimp only
        simp [isErr]
      · rw [try_model, hres2]
        dsimp only
        have ihr := ih c1 (fun nn hnn => hres nn (by simp [hnn]))
        simp only [isErr] at ihr ⊢
        constructor
        · intro hlhs
          have := ihr.mp hlhs
          refine ⟨this.1, by simp [this.2.1], ?_⟩
          intro e he
          simp at he
          rcases he with he | he
          · subst he; simp
          · exact this.2.2 e he
        · intro ⟨h1, h2, h3⟩
          apply ihr.mpr
          refine ⟨h1, by simp at h2; omega, ?_⟩
          intro e he
          exact h3 e (by simp [he])

/-- Invariant of the generator's action loop: at most `fuel` iterations run;
no entry before the last one satisfies the break condition; and when the loop
halts before exhausting its fuel, the last entry does satisfy it. -/
theorem genLoop_spec (steps : Nat → GeneratorAction) :
    ∀ (fuel i : Nat) (fs : FS),
      (genLoop steps fuel i fs).2.length ≤ fuel
      ∧ (∀ j e, j + 1 < (genLoop steps fuel i fs).2.length →
          (genLoop steps fuel i fs).2[j]? = some e → stopsLoop e = false)
      ∧ ((genLoop steps fuel i fs).2.length < fuel →
          ∃ e, (genLoop steps fuel i fs).2[(genLoop steps fuel i fs).2.length - 1]?
              = some e ∧ stopsLoop e = true) := by
  intro fuel
  induction fuel with
  | zero => intro i fs; simp [genLoop]
  | succ fuel ih =>
    intro i fs
    rw [genLoop]
    rcases him : implement_action fs (steps i) with ⟨fs1, output⟩
    dsimp only
    by_cases hstop : ((steps i).is_final && output.any (·.success)) = true
    · rw [if_pos hstop]
      refine ⟨by simp, ?_, ?_⟩
      · intro j e hj he
        simp at hj
      · intro _
        exact ⟨⟨steps i, output⟩, by simp, hstop⟩
    · rw [if_neg hstop]
      simp only [Bool.not_eq_true] at hstop
      rcases hrec : genLoop steps fuel (i + 1) fs1 with ⟨fs2, rest⟩
      have ihr := ih (i + 1) fs1
      rw [hrec] at ihr
      dsimp only at ihr ⊢
      obtain ⟨ih1, ih2, ih3⟩ := ihr
      refine ⟨by simp; omega, ?_, ?_⟩
      · intro j e hj he
        match j, he with
        | 0, he =>
          simp at he
          subst he
          exact hstop
        | j' + 1, he =>
          simp at he hj
          exact ih2 j' e (by omega) he
      · intro hlen
        simp at hlen
        have hlt : rest.length < fuel := by omega
        obtain ⟨e, hge, hse⟩ := ih3 hlt
        have hpos : 0 < rest.length := by
          by_contra hc
          simp at hc
          rw [hc] at hge
          simp at hge
        refine ⟨e, ?_, hse⟩
        have hidx : (⟨steps i, output⟩ :: rest : List ActionMemory).length - 1
            = (rest.length - 1) + 1 := by
          simp
          omega
        rw [hidx]
        simpa using hge

/-- Invariant of one traversal level: starting at index `i`, at most
`MAX_LINKS + 1 - i` pages are analyzed, and at most one record is collected
per analyzed page. -/
theorem levelGo_spec (oracle : String → Option (List String)) :
    ∀ (snapshot : List String) (i : Nat) (urls : List String),
      (levelGo oracle snapshot i urls).1 ≤ MAX_LINKS + 1 - i
      ∧ (levelGo oracle snapshot i urls).2.1 ≤ (levelGo oracle snapshot i urls).1 := by
  intro snapshot
  induction snapshot with
  | nil => intro i urls; simp [levelGo]
  | cons url rest ih =>
    intro i urls
    rw [levelGo]
    by_cases hi : i > MAX_LINKS
    · rw [if_pos hi]; simp
    · rw [if_neg hi]
      cases ho : oracle url with
      | some links =>
        dsimp only
        rcases hr : levelGo oracle rest (i + 1) links with ⟨a, r, u⟩
        have := ih (i + 1) links
        rw [hr] at this
        dsimp only at this ⊢
        simp only [MAX_LINKS] at this hi ⊢
        omega
      | none =>
        dsimp only
        rcases hr : levelGo oracle rest (i + 1) urls with ⟨a, r, u⟩
        have := ih (i + 1) urls
        rw [hr] at this
        dsimp only at this ⊢
        simp only [MAX_LINKS] at this hi ⊢
        omega

/-- Invariant of the traversal's depth loop: at most `d` levels run, each
analyzing at most `MAX_LINKS + 1` pages and collecting at most one record per
page. -/
theorem analyseGo_spec (oracle : String → Option (List String)) :
    ∀ (d : Nat) (urls : List String),
      (analyseGo oracle d urls).length ≤ d
      ∧ ∀ p ∈ analyseGo oracle d urls, p.1 ≤ MAX_LINKS + 1 ∧ p.2 ≤ p.1 := by
  intro d
  induction d with
  | zero => intro urls; simp [analyseGo]
  | succ d ih =>
    intro urls
    rw [analyseGo]
    by_cases hemp : urls.isEmpty
    · rw [if_pos hemp]; simp
    · rw [if_neg hemp]
      rcases hl : levelGo oracle urls 0 urls with ⟨a, r, u⟩
      have hlev := levelGo_spec oracle urls 0 urls
      rw [hl] at hlev
      dsimp only at hlev ⊢
      obtain ⟨hlen, hmem⟩ := ih u
      refine ⟨by simpa using hlen, ?_⟩
      intro p hp
      simp at hp
      rcases hp with hp | hp
      · subst hp
        exact ⟨by simpa using hlev.1, hlev.2⟩
      · exact hmem p hp

/-- Applying a concatenation of operation lists is applying the first list
and then the second on the resulting file system, with feedbacks
concatenated. -/
theorem implActions_append (l1 : List FileAction) :
    ∀ (fs : FS) (l2 : List FileAction),
      implActions fs (l1 ++ l2)
        = ((implActions (implActions fs l1).1 l2).1,
           (implActions fs l1).2 ++ (implActions (implActions fs l1).1 l2).2) := by
  induction l1 with
  | nil => intro fs l2; simp [implActions]
  | cons a rest ih =>
    intro fs l2
    rw [List.cons_append, implActions, implActions]
    rcases ha : applyFileAction fs a with ⟨fs1, fb⟩
    dsimp only
    rw [ih fs1 l2]
    rcases h2 : implActions fs1 rest with ⟨fsr, fbr⟩
    simp

/-- One feedback is produced per file operation. -/
theorem implActions_length (l : List FileAction) :
    ∀ fs : FS, (implActions fs l).2.length = l.length := by
  induction l with
  | nil => intro fs; simp [implActions]
  | cons a rest ih =>
    intro fs
    rw [implActions]
    rcases ha : applyFileAction fs a with ⟨fs1, fb⟩
    dsimp only
    rcases h2 : implActions fs1 rest with ⟨fsr, fbr⟩
    have := ih fs1
    rw [h2] at this
    simp at this ⊢
    exact this

/-! ## Claim C1 -/

/-- C1, counterexample: with the source configuration, a tokenizer charging
9000 tokens per character, and a 100-character payload for the navigator
role, the first fallback model (context length 1,000,000) is dispatched a
payload of 900,000 estimated tokens — more than 0.8 × 1,000,000 — without any
truncation, because `get_completion` only truncates when the count exceeds
the *full* context length. -/
theorem c1_counterexample :
    ¬ c1Claim MODELS MODEL_CHOICES tokC1ex pickZero backendC1ex
      "navigator" [] (List.replicate 100 'a') := by
  unfold c1Claim
  decide

/-- C1 (amended): every payload that reaches the backend either has a
combined estimated token count at most the dispatched model's *full* context
length, or is the output of the character-based truncation routine applied to
content whose combined count exceeded that full length; the 0.8 factor only
governs the truncation's internal content budget, and no 0.8-of-context bound
holds at dispatch. -/
theorem c1_dispatch_full_context_or_truncated {T : Type}
    (models : List (String × Model)) (choices : List (String × List String))
    (tok : List Char → Nat) (pick : Nat → Nat) (backend : Backend T)
    (role : String) (sys content : List Char) :
    ∀ e ∈ (get_completion models choices tok pick backend role sys content).log,
      tok (sys ++ e.payload) ≤ e.model.context_length ∨
      ∃ cprev, e.model.context_length < tok (sys ++ cprev) ∧
        e.payload = truncate_content tok pick cprev sys e.model.context_length := by
  intro e he
  unfold get_completion at he
  rcases hr : dictGet choices role with _ | names
  · rw [hr] at he; simp at he
  · rw [hr] at he
    exact goModels_payload models tok pick backend sys names content e he

/-- C1 witness: the amended statement evaluated on the counterexample's
dispatch-log entry. -/
theorem c1_dispatch_full_context_or_truncated_witness :
    tokC1ex ([] ++ List.replicate 100 'a') ≤ geminiFlash2Model.context_length
    ∨ ∃ cprev, geminiFlash2Model.context_length < tokC1ex ([] ++ cprev) ∧
        List.replicate 100 'a'
          = truncate_content tokC1ex pickZero cprev [] geminiFlash2Model.context_length :=
  c1_dispatch_full_context_or_truncated MODELS MODEL_CHOICES tokC1ex pickZero
    backendC1ex "navigator" [] (List.replicate 100 'a')
    ⟨geminiFlash2Model, List.replicate 100 'a', 1⟩ (by decide)

/-! ## Claim C2 -/

/-- C2, counterexample: with a character-per-token counter, a `max_tokens` of
63 (content budget 50) and a 100-character content, the engine truncates the
content but the output begins with only the first 5 characters of the
original — not its first 10% (10 characters). -/
theorem c2_counterexample : ¬ c2Claim lenTok pickZero contentC2ex [] 63 := by
  unfold c2Claim
  decide

/-- C2 (amended): whenever `_truncate_content` takes its truncation branch,
the output begins with exactly the first `keep_end` characters and ends with
exactly the last `keep_end` characters of the original, where
`keep_end = keep_chars / 10` and
`keep_chars = len(content) * (max_tokens * 4 / 5) / tokens(content)` — i.e.
10% of the *kept* character budget, not 10% of the original content. -/
theorem c2_keeps_head_tail_of_kept_budget (tok : List Char → Nat)
    (pick : Nat → Nat) (content sys : List Char) (max_tokens : Nat)
    (h : max_tokens * 4 / 5 < tok content) :
    (truncate_content tok pick content sys max_tokens).take
        (content.length * (max_tokens * 4 / 5) / tok content / 10)
      = content.take (content.length * (max_tokens * 4 / 5) / tok content / 10)
    ∧ (truncate_content tok pick content sys max_tokens).drop
        ((truncate_content tok pick content sys max_tokens).length
          - content.length * (max_tokens * 4 / 5) / tok content / 10)
      = content.drop
          (content.length - content.length * (max_tokens * 4 / 5) / tok content / 10) := by
  have htok : 0 < tok content := Nat.pos_of_ne_zero (by omega)
  unfold truncate_content
  rw [if_pos h]
  dsimp only
  set A := max_tokens * 4 / 5 with hA
  set K := content.length * A / tok content with hK
  set k := K / 10 with hk
  have hKlen : K ≤ content.length := by
    calc K ≤ content.length * tok content / tok content := by
          apply Nat.div_le_div_right
          exact Nat.mul_le_mul_left _ (le_of_lt h)
      _ = content.length := Nat.mul_div_cancel content.length htok
  have hklen : k ≤ content.length := le_trans (Nat.div_le_self _ _) hKlen
  by_cases hk0 : k = 0
  · rw [if_pos hk0, if_pos hk0]
    simp [hk0]
  · rw [if_neg hk0, if_neg hk0]
    constructor
    · rw [List.append_assoc]
      rw [List.take_left' (by simp [hklen])]
    · have hlenE : (content.drop (content.length - k)).length = k := by
        rw [List.length_drop]
        exact Nat.sub_sub_self hklen
      rw [List.length_append _ (content.drop (content.length - k)), hlenE,
        Nat.add_sub_cancel]
      exact List.drop_left' rfl

/-- C2 witness: the amended head/tail preservation evaluated on the
counterexample content (`keep_chars = 50`, `keep_end = 5`). -/
theorem c2_keeps_head_tail_of_kept_budget_witness :
    (truncate_content lenTok pickZero contentC2ex [] 63).take
        (contentC2ex.length * (63 * 4 / 5) / lenTok contentC2ex / 10)
      = contentC2ex.take (contentC2ex.length * (63 * 4 / 5) / lenTok contentC2ex / 10)
    ∧ (truncate_content lenTok pickZero contentC2ex [] 63).drop
        ((truncate_content lenTok pickZero contentC2ex [] 63).length
          - contentC2ex.length * (63 * 4 / 5) / lenTok contentC2ex / 10)
      = contentC2ex.drop
          (contentC2ex.length - contentC2ex.length * (63 * 4 / 5) / lenTok contentC2ex / 10) :=
  c2_keeps_head_tail_of_kept_budget lenTok pickZero contentC2ex [] 63 (by decide)

/-! ## Claim C3 -/

/-- C3: for a role `"x"` with fallback `[A(retries = 2), B(retries = 1)]`
where every attempt on `A` fails transiently and `B` succeeds on its first
attempt with value `t`, `get_completion` returns `t`, the models are
dispatched in declared order with `A` attempted exactly twice and `B` exactly
once, and 3 attempts are made in total — regardless of the models' context
lengths, capability flags, or the payload. -/
theorem c3_priority_chain_scenario (T : Type) (t : T) (pick : Nat → Nat)
    (sys content : List Char) (ctxA ctxB : Nat) (sa pa sb pb : Bool) :
    (c3Run T t pick sys content ctxA ctxB sa pa sb pb).result = .ok t ∧
      (c3Run T t pick sys content ctxA ctxB sa pa sb pb).log.map
          (fun e => (e.model.name, e.attempts)) = [("A", 2), ("B", 1)] ∧
      ((c3Run T t pick sys content ctxA ctxB sa pa sb pb).log.map (·.attempts)).sum = 3 :=
  ⟨rfl, rfl, rfl⟩

/-! ## Claim C4 -/

/-- C4, counterexample: role `"x"` with models `[A(retries = 1),
B(retries = 1)]` where `A`'s first attempt raises an uncaught `ValueError`:
`get_completion` fails by propagating that exception — not the exhaustion
signal — with `B` never dispatched and never exhausted, refuting "fails if
and only if every model has exhausted its retry budget". -/
theorem c4_counterexample :
    ¬ c4Claim modelsABex choicesXex lenTok pickZero backendFatalAex
      "x" [] [] ["A", "B"] := by
  unfold c4Claim
  decide

/-- C4 (amended): provided every attempt outcome is a success or one of the
retried (transient) exception classes, and the role and its model names all
resolve, `get_completion` fails exactly when every model in the fallback list
spent its full retry budget, and then the failure is the single exhaustion
signal; a non-retried exception instead propagates immediately, failing the
call without consulting the remaining models. -/
theorem c4_exhaustion_iff_all_budgets_spent {T : Type}
    (models : List (String × Model)) (choices : List (String × List String))
    (tok : List Char → Nat) (pick : Nat → Nat) (backend : Backend T)
    (role : String) (sys content : List Char) (names : List String)
    (hrole : dictGet choices role = some names)
    (hmods : ∀ n ∈ names, (dictGet models n).isSome)
    (hb : ∀ n i cc, backend n i cc = .transient ∨ ∃ t, backend n i cc = .success t) :
    c4Claim models choices tok pick backend role sys content names := by
  unfold c4Claim get_completion
  rw [hrole]
  exact goModels_exhaustion models tok pick backend sys hb names content hmods

/-- C4 witness: the amended statement on the two-model chain with an
all-transient backend. -/
theorem c4_exhaustion_iff_all_budgets_spent_witness :
    c4Claim modelsABex choicesXex lenTok pickZero backendTransientEx
      "x" [] [] ["A", "B"] :=
  c4_exhaustion_iff_all_budgets_spent modelsABex choicesXex lenTok pickZero
    backendTransientEx "x" [] [] ["A", "B"] rfl (by decide)
    (fun _ _ _ => Or.inl rfl)

/-! ## Claim C5 -/

/-- C5 (code bug): `structure_response` resolves the structurer as
`MODELS[MODEL_CHOICES["structurer"]]`, indexing the catalog with the *list*
`["gemini-flash-1-5"]` — an unhashable dict key — so it raises `TypeError`
before any structurer call is made, for every response and every would-be
backend; yet the single configured structurer model the spec intends
(`MODEL_CHOICES["structurer"][0]`) does resolve in the catalog. -/
theorem c5_structure_response_raises {T : Type}
    (structBackend : Model → List Char → T) (resp : List Char) :
    structure_response MODELS MODEL_CHOICES structBackend resp = .error .typeError
    ∧ intendedStructurerModel MODELS MODEL_CHOICES
        = .ok ⟨"google/gemini-flash-1.5", 2000000, "Gemini Flash 1.5", true, true,
                [.google, .googleAIStudio], 3⟩ :=
  ⟨rfl, rfl⟩

/-! ## Claim C6 -/

/-- C6: whenever the counted number of scraped items is zero, the
`TestResult` returned by `test_scraper` has `success = false`, regardless of
the critic's verdict and of how the subprocess run ended. -/
theorem c6_zero_items_forces_failure (env : DebugEnv)
    (h : env.items_scraped = 0) : (test_scraper env).success = false := by
  unfold test_scraper
  rcases env with ⟨name, run, items, critic⟩
  cases name with
  | none => rfl
  | some s =>
    cases run <;> dsimp only <;> simp at h <;> simp [h]

/-- C6 witness: a run counting zero items with a critic verdict of success
still yields an overall failure. -/
theorem c6_zero_items_forces_failure_witness :
    (test_scraper ⟨some "sp", .completed "out" "err", 0, ⟨true, 5, "ok"⟩⟩).success
      = false :=
  c6_zero_items_forces_failure ⟨some "sp", .completed "out" "err", 0, ⟨true, 5, "ok"⟩⟩ rfl

/-! ## Claim C7 -/

/-- C7: the generating phase's inner loop performs at most `MAX_ACTIONS`
actions; no action before the last recorded one satisfies the break condition
(final with at least one successful operation) — in particular a final-marked
action whose operations all failed never stops the loop — and if the loop
halts before `MAX_ACTIONS` actions, its last action does satisfy the break
condition. -/
theorem c7_generator_stops_on_final_success (steps : Nat → GeneratorAction)
    (fs : FS) :
    (generate_spider steps fs).2.length ≤ MAX_ACTIONS
    ∧ (∀ j e, j + 1 < (generate_spider steps fs).2.length →
        (generate_spider steps fs).2[j]? = some e → stopsLoop e = false)
    ∧ ((generate_spider steps fs).2.length < MAX_ACTIONS →
        ∃ e, (generate_spider steps fs).2[(generate_spider steps fs).2.length - 1]?
            = some e ∧ stopsLoop e = true) :=
  genLoop_spec steps MAX_ACTIONS 0 fs

/-- C7 witness: with a never-final action stream, the loop's memory respects
the `MAX_ACTIONS` bound. -/
theorem c7_generator_stops_on_final_success_witness :
    (generate_spider stepsC7ex fsEmpty).2.length ≤ MAX_ACTIONS :=
  (c7_generator_stops_on_final_success stepsC7ex fsEmpty).1

/-! ## Claim C8 -/

/-- C8, counterexample: when the start page yields seven links, the second
depth level analyzes 6 pages — `MAX_LINKS + 1`, because the break condition
`i > MAX_LINKS` lets index `MAX_LINKS` through — refuting "at most MAX_LINKS
links at each depth level". -/
theorem c8_counterexample : ¬ c8Claim oracleC8ex "s" := by
  unfold c8Claim
  decide

/-- C8 (amended): the traversal runs at most `MAX_DEPTH` depth levels, each
level analyzes at most `MAX_LINKS + 1` links (off by one from the spec's
`MAX_LINKS`), and each level collects at most one analysis record per
analyzed page. -/
theorem c8_depth_and_links_bounds (oracle : String → Option (List String))
    (start_url : String) :
    (analyse_website oracle start_url).length ≤ MAX_DEPTH
    ∧ ∀ p ∈ analyse_website oracle start_url, p.1 ≤ MAX_LINKS + 1 ∧ p.2 ≤ p.1 := by
  unfold analyse_website
  exact analyseGo_spec oracle MAX_DEPTH [start_url]

/-- C8 witness: the depth bound on the counterexample traversal. -/
theorem c8_depth_and_links_bounds_witness :
    (analyse_website oracleC8ex "s").length ≤ MAX_DEPTH :=
  (c8_depth_and_links_bounds oracleC8ex "s").1

/-! ## Claim C9 -/

/-- C9: in any generator action whose operation list contains a create
operation targeting a path that already exists at that point, applying the
action yields (without raising) a per-operation failure feedback — `success =
false` with an explanatory message — at that operation's position, and the
existing file's content is unchanged after that operation. -/
theorem c9_create_on_existing_path_fails_softly (fs : FS)
    (pre post : List FileAction) (a : FileAction) (isf : Bool) (c : String)
    (htype : a.action_type = .create)
    (hexists : fsRead (implActions fs pre).1 a.file = some c) :
    (implement_action fs ⟨pre ++ a :: post, isf⟩).2[pre.length]?
        = some ⟨false, "File " ++ a.file ++ " already exists. Skipping."⟩
    ∧ fsRead (implActions fs (pre ++ [a])).1 a.file = some c := by
  have happly : applyFileAction (implActions fs pre).1 a
      = ((implActions fs pre).1,
         ⟨false, "File " ++ a.file ++ " already exists. Skipping."⟩) := by
    rw [applyFileAction, htype]
    rw [handle_create_action, hexists]
  constructor
  · rw [implement_action]
    dsimp only
    rw [implActions_append pre fs (a :: post)]
    dsimp only
    rw [List.getElem?_append_right (by simp [implActions_length])]
    rw [implActions_length, Nat.sub_self]
    rw [implActions]
    rw [happly]
    dsimp only
    rcases hrest : implActions (implActions fs pre).1 post with ⟨fsr, fbr⟩
    simp
  · rw [implActions_append pre fs [a]]
    dsimp only
    rw [implActions]
    rw [happly]
    dsimp only
    rw [implActions]
    dsimp only
    exact hexists

/-- C9 witness: creating `"x.py"` when it already holds `"old"` yields the
failure feedback and leaves the content `"old"` in place. -/
theorem c9_create_on_existing_path_fails_softly_witness :
    (implement_action [("x.py", "old")] ⟨[⟨"x.py", .create, "new"⟩], true⟩).2[0]?
        = some ⟨false, "File " ++ "x.py" ++ " already exists. Skipping."⟩
    ∧ fsRead (implActions [("x.py", "old")] ([] ++ [⟨"x.py", .create, "new"⟩])).1 "x.py"
        = some "old" :=
  c9_create_on_existing_path_fails_softly [("x.py", "old")] [] []
    ⟨"x.py", .create, "new"⟩ true "old" rfl (by decide)

/-! ## Claim C10 -/

/-- C10, counterexample: with `OPENROUTER_API_KEY` unset, constructing an
`AutoScraper` raises `ValueError` from `OpenRouterClient.__init__` — not
`TypeError` — refuting "every attempt to construct a session raises a
TypeError". -/
theorem c10_counterexample :
    autoScraperInit ⟨none⟩ = .error .valueError
    ∧ PyExn.valueError ≠ PyExn.typeError := by decide

/-- C10 (amended): `AutoScraper.__init__` never completes in any environment;
whenever client construction succeeds (the API key is set and non-empty), it
raises `TypeError` at `DebuggerAgent(self.navigator)` — one positional
argument against a zero-parameter `__init__` — so no session-level operation
is reachable through the public constructor. -/
theorem c10_init_never_succeeds (env : Env) :
    autoScraperInit env ≠ .ok ()
    ∧ (openRouterClientInit env = .ok () →
        autoScraperInit env = .error .typeError) := by
  rcases env with ⟨key⟩
  cases key with
  | none =>
    simp [autoScraperInit, navigatorAgentInit, generatorAgentInit,
      openRouterClientInit, callDebuggerAgent, Bind.bind, Except.bind]
  | some s =>
    by_cases hs : s = ""
    · subst hs
      simp [autoScraperInit, navigatorAgentInit, generatorAgentInit,
        openRouterClientInit, callDebuggerAgent, Bind.bind, Except.bind]
    · simp [autoScraperInit, navigatorAgentInit, generatorAgentInit,
        openRouterClientInit, callDebuggerAgent, debuggerAgentInitArity,
        Bind.bind, Except.bind, hs]

/-- C10 witness: with an API key present, construction fails with
`TypeError`. -/
theorem c10_init_never_succeeds_witness :
    autoScraperInit ⟨some "key"⟩ ≠ .ok ()
    ∧ (openRouterClientInit ⟨some "key"⟩ = .ok () →
        autoScraperInit ⟨some "key"⟩ = .error .typeError) :=
  c10_init_never_succeeds ⟨some "key"⟩

end AutoHubble
